import Mathlib

/-!
Shallow embedding of the NSG surveillance demo (src/app.py and
src/backend.py) and verification of its specification's claims.

Conventions of the embedding:
  * Python floats (confidences, fps, timestamps in seconds) are modelled
    as rationals `ℚ`;
  * a Python dict with optional keys becomes a structure with `Option`
    fields;
  * the Streamlit session state is the `Session` structure; the handler
    of the "Start Analysis" button is the function `startAnalysis`,
    taking every configuration input the page offers even though the
    source reads none of them while building the session contents;
  * `json.dumps(report, indent=2)` is modelled by `serializeReport`, a
    deterministic rendering of the report's fields in dict insertion
    order (whitespace layout, float formatting and string escaping are
    abstracted; none of the claims depend on them);
  * `cv2.VideoCapture` is abstracted by its observable result: `none`
    when the file is missing/corrupt/unsupported (`cap.isOpened()` is
    false), `some props` otherwise.
-/

/-- One entry of `st.session_state.detections` (src/app.py lines 162-184).
Optional dict keys (`watchlist_match`, `watchlist_id`, `plate`) are
`Option` fields. -/
structure Detection where
  type : String
  confidence : ℚ
  timestamp : String
  location : ℕ × ℕ × ℕ × ℕ
  watchlist_match : Option Bool := none
  watchlist_id : Option String := none
  plate : Option String := none
deriving DecidableEq

/-- One entry of `st.session_state.alerts` (src/app.py lines 187-194). -/
structure Alert where
  severity : String
  message : String
  timestamp : String
  confidence : ℕ
deriving DecidableEq

/-- The Streamlit session state relevant to the pipeline
(src/app.py lines 37-42). -/
structure Session where
  detections : List Detection
  alerts : List Alert
  processed : Bool
deriving DecidableEq

/-- The initial session state (src/app.py lines 37-42): empty lists,
`processed = False`. -/
def initialSessionState : Session :=
  { detections := [], alerts := [], processed := false }

/-- The hardcoded detection list the analysis handler stores
(src/app.py lines 162-184). -/
def mockDetections : List Detection :=
  [ { type := "person", confidence := 92/100, timestamp := "00:00:05",
      location := (120, 80, 200, 350) },
    { type := "person", confidence := 88/100, timestamp := "00:00:12",
      location := (450, 100, 180, 320),
      watchlist_match := some true, watchlist_id := some "WL-2847" },
    { type := "vehicle", confidence := 91/100, timestamp := "00:00:18",
      location := (50, 400, 300, 200), plate := some "DL-7XYZ-1234" } ]

/-- Whether a detection carries a non-empty watchlist identifier
(the `'watchlist_id'` key of the detection dict). -/
def hasWatchlistId (d : Detection) : Bool :=
  match d.watchlist_id with
  | some w => !(w == "")
  | none => false

/-- The hardcoded alert list the analysis handler stores
(src/app.py lines 187-194). -/
def mockAlerts : List Alert :=
  [ { severity := "HIGH",
      message := "WATCHLIST MATCH: Individual WL-2847 detected",
      timestamp := "00:00:12", confidence := 88 } ]

/-- The "Start Analysis" button handler (src/app.py lines 148-199).
Its inputs are the selected detection mode, the confidence-threshold
slider, the frame-skip slider and the uploaded video (abstracted to its
frame count, the only property the handler touches, and only for the
progress text). The session it stores is the fixed mock data: none of
the inputs flows into it. -/
def startAnalysis (detectionMode : String) (confidenceThreshold : ℚ)
    (frameSkip : ℕ) (videoFrameCount : ℕ) : Session :=
  { detections := mockDetections, alerts := mockAlerts, processed := true }

/-- The `summary` sub-dict of the exported report
(src/app.py lines 336-339). -/
structure Summary where
  total_detections : ℕ
  critical_alerts : ℕ
deriving DecidableEq

/-- The report dict built by the "Export Report" handler
(src/app.py lines 332-340), with the export timestamp passed in
(`datetime.now().isoformat()` in the source). -/
structure Report where
  timestamp : String
  detections : List Detection
  alerts : List Alert
  summary : Summary
deriving DecidableEq

/-- Counts the CRITICAL alerts:
`sum(1 for a in alerts if a['severity'] == 'CRITICAL')`
(src/app.py lines 282 and 338). -/
def criticalCount (alerts : List Alert) : ℕ :=
  (alerts.filter (fun a => a.severity == "CRITICAL")).length

/-- Builds the report dict of src/app.py lines 332-340 from the session
state and the export instant. -/
def mkReport (s : Session) (now : String) : Report :=
  { timestamp := now,
    detections := s.detections,
    alerts := s.alerts,
    summary := { total_detections := s.detections.length,
                 critical_alerts := criticalCount s.alerts } }

/-- What the Reports tab does for a given session (src/app.py lines
265-349): the export control (and with it a report document) exists only
when `processed` is true; otherwise the tab shows an informational
prompt. The `invalidStateError` alternative exists so the spec's claimed
outcome is expressible; no code path produces it. -/
inductive ReportsTabOutcome where
  | exported (r : Report)
  | infoProcessFirst
  | invalidStateError
deriving DecidableEq

/-- The Reports tab / "Export Report" path (src/app.py lines 268, 329-349):
`if st.session_state.processed: ... report ... else: st.info(...)`. -/
def reportsTab (s : Session) (now : String) : ReportsTabOutcome :=
  if s.processed then .exported (mkReport s now) else .infoProcessFirst

/-- JSON string literal (escaping abstracted: no string in the embedded
data contains characters needing it). -/
def jsonString (s : String) : String := "\"" ++ s ++ "\""

/-- Rendering of one detection dict inside `json.dumps`, keys in
insertion order; optional keys appear only when present. -/
def serializeDetection (d : Detection) : String :=
  "\x7b" ++ "\"type\": " ++ jsonString d.type
    ++ ", \"confidence\": " ++ toString d.confidence
    ++ ", \"timestamp\": " ++ jsonString d.timestamp
    ++ ", \"location\": [" ++ toString d.location.1
    ++ ", " ++ toString d.location.2.1
    ++ ", " ++ toString d.location.2.2.1
    ++ ", " ++ toString d.location.2.2.2 ++ "]"
    ++ (match d.watchlist_match with
        | none => ""
        | some b => ", \"watchlist_match\": " ++ (if b then "true" else "false"))
    ++ (match d.watchlist_id with
        | none => ""
        | some w => ", \"watchlist_id\": " ++ jsonString w)
    ++ (match d.plate with
        | none => ""
        | some p => ", \"plate\": " ++ jsonString p)
    ++ "\x7d"

/-- Rendering of one alert dict inside `json.dumps`, keys in insertion
order. -/
def serializeAlert (a : Alert) : String :=
  "\x7b" ++ "\"severity\": " ++ jsonString a.severity
    ++ ", \"message\": " ++ jsonString a.message
    ++ ", \"timestamp\": " ++ jsonString a.timestamp
    ++ ", \"confidence\": " ++ toString a.confidence
    ++ "\x7d"

/-- Rendering of the summary sub-dict inside `json.dumps`. -/
def serializeSummary (s : Summary) : String :=
  "\x7b" ++ "\"total_detections\": " ++ toString s.total_detections
    ++ ", \"critical_alerts\": " ++ toString s.critical_alerts
    ++ "\x7d"

/-- Models `json.dumps(report, indent=2)` (src/app.py line 344): a deterministic
rendering of the report dict, keys in insertion order (`timestamp`,
`detections`, `alerts`, `summary`); indentation layout abstracted. -/
def serializeReport (r : Report) : String :=
  "\x7b" ++ "\"timestamp\": " ++ jsonString r.timestamp
    ++ ", \"detections\": ["
    ++ String.intercalate ", " (r.detections.map serializeDetection) ++ "]"
    ++ ", \"alerts\": ["
    ++ String.intercalate ", " (r.alerts.map serializeAlert) ++ "]"
    ++ ", \"summary\": " ++ serializeSummary r.summary
    ++ "\x7d"

/-! ## src/backend.py -/

/-- The raw properties `cv2.VideoCapture` reports for an opened source:
`CAP_PROP_FPS` (a float, modelled as `ℚ`) and the `int(...)`-converted
`CAP_PROP_FRAME_COUNT`, `CAP_PROP_FRAME_WIDTH`, `CAP_PROP_FRAME_HEIGHT`
(src/backend.py lines 30-33, src/app.py lines 126-129). -/
structure RawVideoProps where
  fps : ℚ
  frame_count : ℕ
  width : ℕ
  height : ℕ
deriving DecidableEq

/-- The `info` dict `get_video_info` builds (src/backend.py lines 38-45). -/
structure VideoInfo where
  fps : ℚ
  frame_count : ℕ
  width : ℕ
  height : ℕ
  duration : ℚ
  resolution : String
deriving DecidableEq

/-- The successful branch of `get_video_info` (src/backend.py lines
30-45): in particular
`duration = frame_count / fps if fps > 0 else 0` (line 34). -/
def videoInfoOf (p : RawVideoProps) : VideoInfo :=
  { fps := p.fps, frame_count := p.frame_count,
    width := p.width, height := p.height,
    duration := if p.fps > 0 then (p.frame_count : ℚ) / p.fps else 0,
    resolution := toString p.width ++ "x" ++ toString p.height }

/-- The observable outcome of `VideoProcessor.get_video_info`
(src/backend.py lines 16-55). `returnedNone` is the `return None` of
line 27; `ioError` exists so the spec's claimed outcome (a raised
IOError) is expressible; no code path produces it. -/
inductive GetVideoInfoResult where
  | info (i : VideoInfo)
  | returnedNone
  | ioError
deriving DecidableEq

/-- Models `VideoProcessor.get_video_info` (src/backend.py lines 16-55), with
the `cv2.VideoCapture` call abstracted to its result: `none` when the
file is missing/corrupt/unsupported (`cap.isOpened()` false), in which
case the function prints an error and returns `None`; otherwise the info
dict. -/
def get_video_info (opened : Option RawVideoProps) : GetVideoInfoResult :=
  match opened with
  | none => .returnedNone
  | some p => .info (videoInfoOf p)

/-- Computes `duration = frame_count / fps if fps > 0 else 0` as
src/app.py line 130 does inline after an upload. -/
def appVideoDuration (fps : ℚ) (frame_count : ℕ) : ℚ :=
  if fps > 0 then (frame_count : ℚ) / fps else 0

/-- The `while True` loop of `VideoProcessor.process_video`
(src/backend.py lines 89-118), one constructor case per loop iteration.
`frames` is the list of frames `cap.read()` still has to deliver, each
identified by its 0-based ordinal index in the source; `frame_count` and
`processed_count` are the loop counters of lines 89-90; `acc` collects,
for every frame that survives the skip test of line 101, the pair
(frame, timestamp) where `timestamp = frame_count / fps` (line 108).
The display and the 'q'-interrupt of lines 112-116 are user-interaction
side effects outside the claims and are omitted: this is the
uninterrupted run. -/
def processFrames (fps : ℚ) (frame_skip : ℕ) :
    List ℕ → ℕ → ℕ → List (ℕ × ℚ) → ℕ × ℕ × List (ℕ × ℚ)
  | [], frame_count, processed_count, acc =>
      (frame_count, processed_count, acc)
  | f :: rest, frame_count, processed_count, acc =>
      let fc := frame_count + 1
      if fc % frame_skip ≠ 0 then
        processFrames fps frame_skip rest fc processed_count acc
      else
        processFrames fps frame_skip rest fc (processed_count + 1)
          (acc ++ [(f, (fc : ℚ) / fps)])

/-- Models `VideoProcessor.process_video` (src/backend.py lines 74-125) on an
opened source with `n` frames, frame rate `fps` and the given
`frame_skip`: returns the final `frame_count`, `processed_count`, and
the sampled (frame index, timestamp) pairs in emission order. -/
def process_video (n frame_skip : ℕ) (fps : ℚ) : ℕ × ℕ × List (ℕ × ℚ) :=
  processFrames fps frame_skip (List.range n) 0 0 []

/-- The 1-based `frame_count` values at which the loop's skip test
passes, for counts `s+1, ..., s+r`. -/
def sampledCounts (frame_skip s r : ℕ) : List ℕ :=
  (List.range' (s + 1) r).filter (fun c => c % frame_skip == 0)

/-! ## Loop analysis -/

/-- The per-sample emission of the loop: the frame whose 1-based count is
`c` has 0-based index `c - 1` and timestamp `c / fps`. -/
def emittedPair (fps : ℚ) (c : ℕ) : ℕ × ℚ := (c - 1, (c : ℚ) / fps)

theorem processFrames_range' (fps : ℚ) (skip : ℕ) :
    ∀ (r s pc : ℕ) (acc : List (ℕ × ℚ)),
    processFrames fps skip (List.range' s r) s pc acc =
      (s + r, pc + (sampledCounts skip s r).length,
        acc ++ (sampledCounts skip s r).map (emittedPair fps)) := by
  intro r
  induction r with
  | zero =>
    intro s pc acc
    simp [processFrames, sampledCounts, List.range']
  | succ r ih =>
    intro s pc acc
    rw [List.range'_succ]
    by_cases h : (s + 1) % skip = 0
    · have hcons : sampledCounts skip s (r + 1) =
          (s + 1) :: sampledCounts skip (s + 1) r := by
        simp [sampledCounts, List.range'_succ, List.filter_cons, h]
      have hstep : processFrames fps skip (s :: List.range' (s + 1) r) s pc acc
          = processFrames fps skip (List.range' (s + 1) r) (s + 1) (pc + 1)
              (acc ++ [emittedPair fps (s + 1)]) := by
        simp [processFrames, h, emittedPair]
      rw [hstep, ih (s + 1) (pc + 1) (acc ++ [emittedPair fps (s + 1)]), hcons]
      rw [show s + 1 + r = s + (r + 1) by omega]
      rw [show pc + 1 + (sampledCounts skip (s + 1) r).length
            = pc + ((sampledCounts skip (s + 1) r).length + 1) by omega]
      simp [List.append_assoc]
    · have hcons : sampledCounts skip s (r + 1) =
          sampledCounts skip (s + 1) r := by
        simp [sampledCounts, List.range'_succ, List.filter_cons, h]
      have hstep : processFrames fps skip (s :: List.range' (s + 1) r) s pc acc
          = processFrames fps skip (List.range' (s + 1) r) (s + 1) pc acc := by
        simp [processFrames, h]
      rw [hstep, ih (s + 1) pc acc, hcons]
      rw [show s + 1 + r = s + (r + 1) by omega]

theorem sampledCounts_zero_eq (skip : ℕ) (hskip : 1 ≤ skip) :
    ∀ n : ℕ, sampledCounts skip 0 n
      = (List.range (n / skip)).map (fun i => (i + 1) * skip) := by
  intro n
  induction n with
  | zero => simp [sampledCounts, List.range']
  | succ n ih =>
    have hsplit : sampledCounts skip 0 (n + 1)
        = sampledCounts skip 0 n
          ++ List.filter (fun c => c % skip == 0) [1 + n] := by
      unfold sampledCounts
      rw [List.range'_1_concat, List.filter_append]
    rw [hsplit, ih]
    by_cases hd : skip ∣ (n + 1)
    · have hmod : (n + 1) % skip = 0 := Nat.dvd_iff_mod_eq_zero.mp hd
      have hdiv : (n + 1) / skip = n / skip + 1 := Nat.succ_div_of_dvd hd
      have hval : (n / skip + 1) * skip = n + 1 := by
        rw [← hdiv]
        exact Nat.div_mul_cancel hd
      rw [hdiv, List.range_succ, List.map_append]
      simp [hmod, hval, Nat.add_comm 1 n]
    · have hmod : ¬ (n + 1) % skip = 0 := fun hc =>
        hd (Nat.dvd_iff_mod_eq_zero.mpr hc)
      have hdiv : (n + 1) / skip = n / skip := Nat.succ_div_of_not_dvd hd
      rw [hdiv]
      simp [Nat.add_comm 1 n, hmod]

theorem process_video_eq (n skip : ℕ) (fps : ℚ) :
    process_video n skip fps =
      (n, (sampledCounts skip 0 n).length,
        (sampledCounts skip 0 n).map (emittedPair fps)) := by
  have h := processFrames_range' fps skip n 0 0 []
  simpa [process_video, List.range_eq_range'] using h

/-! ## Claims -/

/-- C1 counterexample: the claim says a source with frame_count = 3 and
skip = 5 (skip > frame_count) emits exactly 1 sampled frame; the loop of
src/backend.py lines 92-116 processes none (its skip test
`frame_count % frame_skip == 0` on the 1-based running count never
passes for counts 1..3). -/
theorem sampler_skip_gt_frames_cex : ¬ (process_video 3 5 30).2.1 = 1 := by
  decide

/-- C1 (amended): for every source with `n` frames and every skip ≥ 1,
`process_video` emits exactly `n / skip` (floor division) sampled
frames, and the sampled 0-based frame indices are
skip-1, 2*skip-1, ..., (n/skip)*skip-1. -/
theorem sampler_emits_floor_count (n skip : ℕ) (fps : ℚ)
    (hskip : 1 ≤ skip) :
    (process_video n skip fps).2.1 = n / skip
    ∧ (process_video n skip fps).2.2.map Prod.fst
        = (List.range (n / skip)).map (fun i => (i + 1) * skip - 1) := by
  rw [process_video_eq, sampledCounts_zero_eq skip hskip n]
  constructor
  · simp
  · rw [List.map_map, List.map_map]
    rfl

/-- C1 witness: 12 frames at skip 5 give 12 / 5 = 2 samples, at 0-based
indices 4 and 9. -/
theorem sampler_emits_floor_count_witness :
    (process_video 12 5 30).2.1 = 12 / 5
    ∧ (process_video 12 5 30).2.2.map Prod.fst
        = (List.range (12 / 5)).map (fun i => (i + 1) * 5 - 1) :=
  sampler_emits_floor_count 12 5 30 (by norm_num)

/-- C5 counterexample: the claim says each sampled frame's timestamp is
frame_index / fps; for a 5-frame source at 30 fps with skip 5 the one
sampled frame has 0-based index 4 but timestamp 5/30 = 1/6, not
4/30. -/
theorem sampler_timestamp_cex :
    (process_video 5 5 30).2.2 = [(4, (1 : ℚ)/6)]
    ∧ ¬ ((1 : ℚ)/6 = (4 : ℚ)/30) := by
  constructor
  · have h5 : sampledCounts 5 0 5 = [5] := by decide
    rw [process_video_eq, h5]
    simp [emittedPair, Prod.ext_iff]
    norm_num
  · norm_num

/-- C5 (amended): the timestamp paired with a sampled frame is
(frame_index + 1) / fps — the 1-based running `frame_count` divided by
fps (src/backend.py line 108) — not frame_index / fps. -/
theorem sampler_timestamp_succ_index (n skip : ℕ) (fps : ℚ)
    (hskip : 1 ≤ skip) :
    ∀ p ∈ (process_video n skip fps).2.2,
      p.2 = ((p.1 : ℚ) + 1) / fps := by
  rw [process_video_eq, sampledCounts_zero_eq skip hskip n]
  intro p hp
  rw [List.map_map] at hp
  simp only [List.mem_map, List.mem_range, Function.comp] at hp
  obtain ⟨i, hi, rfl⟩ := hp
  have hpos : 1 ≤ (i + 1) * skip := Nat.mul_pos (Nat.succ_pos i) hskip
  simp only [emittedPair]
  rw [Nat.cast_sub hpos]
  congr 1
  push_cast
  ring

/-- C5 witness: the sampled pair (index 4, timestamp 1/6) of a 5-frame
source at 30 fps satisfies timestamp = (index + 1) / fps. -/
theorem sampler_timestamp_succ_index_witness :
    ((4, (1 : ℚ)/6) : ℕ × ℚ).2
      = ((((4, (1 : ℚ)/6) : ℕ × ℚ).1 : ℚ) + 1) / 30 :=
  sampler_timestamp_succ_index 5 5 30 (by norm_num) (4, (1 : ℚ)/6)
    (by
      have h5 : sampledCounts 5 0 5 = [5] := by decide
      rw [process_video_eq, h5]
      simp [emittedPair, Prod.ext_iff]
      norm_num)

/-- C2 counterexample: with the confidence-threshold slider at 0.95 (a
value its range allows, src/app.py lines 70-77), the session stored by
the analysis handler still contains the hardcoded detection with
confidence 0.88 < 0.95: the threshold is never applied. -/
theorem threshold_not_applied_cex :
    ∃ d ∈ (startAnalysis "All Objects" (95/100) 5 300).detections,
      d.confidence < 95/100 := by
  refine ⟨{ type := "person", confidence := 88/100, timestamp := "00:00:12",
            location := (450, 100, 180, 320),
            watchlist_match := some true,
            watchlist_id := some "WL-2847" }, ?_, ?_⟩
  · simp [startAnalysis, mockDetections]
  · norm_num

/-- C2 (amended): the final session's detection list is the fixed mock
data with confidences 0.92, 0.88, 0.91, so no detection has confidence
below the threshold exactly when the threshold is at most 0.88; for
larger thresholds the property fails because the threshold is never
applied. -/
theorem detections_above_low_thresholds (m : String) (t : ℚ) (k v : ℕ)
    (ht : t ≤ 88/100) :
    ∀ d ∈ (startAnalysis m t k v).detections, ¬ d.confidence < t := by
  intro d hd
  simp only [startAnalysis, mockDetections, List.mem_cons,
    List.not_mem_nil, or_false] at hd
  rcases hd with h | h | h <;> subst h <;>
    exact not_lt.mpr (le_trans ht (by norm_num))

/-- C2 witness: at threshold 0.5 the first mock detection (confidence
0.92) is not below the threshold. -/
theorem detections_above_low_thresholds_witness :
    ¬ ({ type := "person", confidence := 92/100, timestamp := "00:00:05",
         location := (120, 80, 200, 350) } : Detection).confidence
        < (1/2 : ℚ) :=
  detections_above_low_thresholds "All Objects" (1/2) 5 300 (by norm_num)
    _ (by simp [startAnalysis, mockDetections])

/-- C3: in the session the analysis handler produces, every detection
with a non-empty watchlist_id has exactly one HIGH alert with the same
timestamp, and a detection without a watchlist_id has no alert
referencing its timestamp (src/app.py lines 162-194). -/
theorem watchlist_unique_high_alert (m : String) (t : ℚ) (k v : ℕ)
    (d : Detection) (hd : d ∈ (startAnalysis m t k v).detections) :
    (hasWatchlistId d = true →
      ((startAnalysis m t k v).alerts.filter
        (fun a => a.severity == "HIGH" && a.timestamp == d.timestamp)).length = 1)
    ∧ (d.watchlist_id = none →
      ((startAnalysis m t k v).alerts.filter
        (fun a => a.timestamp == d.timestamp)).length = 0) := by
  simp only [startAnalysis, mockDetections, List.mem_cons,
    List.not_mem_nil, or_false] at hd
  rcases hd with h | h | h <;> subst h <;>
    constructor <;> intro hcond <;>
    first
      | exact absurd hcond (by decide)
      | (simp only [startAnalysis]; decide)

/-- C3 witness: the watchlist detection at 00:00:12 has exactly one
matching HIGH alert. -/
theorem watchlist_unique_high_alert_witness :
    ((startAnalysis "All Objects" (1/2) 5 300).alerts.filter
      (fun a => a.severity == "HIGH" && a.timestamp == "00:00:12")).length = 1 :=
  (watchlist_unique_high_alert "All Objects" (1/2) 5 300
    { type := "person", confidence := 88/100, timestamp := "00:00:12",
      location := (450, 100, 180, 320), watchlist_match := some true,
      watchlist_id := some "WL-2847" }
    (by simp [startAnalysis, mockDetections])).1 (by decide)

/-- C4 counterexample: on the initial (unprocessed) session the Reports
tab shows the "process a video first" prompt — it does not fail with
InvalidStateError (src/app.py lines 268, 348-349). -/
theorem export_unprocessed_not_error_cex :
    reportsTab initialSessionState "2026-10-12T00:00:00"
        = ReportsTabOutcome.infoProcessFirst
    ∧ ReportsTabOutcome.infoProcessFirst
        ≠ ReportsTabOutcome.invalidStateError := by
  exact ⟨rfl, by decide⟩

/-- C4 (amended): for every session with processed = false, the export
path produces no report document — the export control is replaced by an
informational prompt — rather than raising InvalidStateError. -/
theorem export_unprocessed_no_report (s : Session) (now : String)
    (h : s.processed = false) :
    reportsTab s now = ReportsTabOutcome.infoProcessFirst := by
  simp [reportsTab, h]

/-- C4 witness: the initial session state is unprocessed and its Reports
tab outcome is the informational prompt. -/
theorem export_unprocessed_no_report_witness :
    reportsTab initialSessionState "2026-10-12T00:00:01"
      = ReportsTabOutcome.infoProcessFirst :=
  export_unprocessed_no_report initialSessionState "2026-10-12T00:00:01" rfl

/-- C6: exporting the same frozen session twice yields reports with
identical detections, alerts and summary, and the two serializations
are byte-identical except for the export-timestamp bytes: both are
`pre ++ timestamp ++ post` for the same `pre` and `post`. -/
theorem export_deterministic_except_timestamp (s : Session)
    (now₁ now₂ : String) :
    (mkReport s now₁).detections = (mkReport s now₂).detections
    ∧ (mkReport s now₁).alerts = (mkReport s now₂).alerts
    ∧ (mkReport s now₁).summary = (mkReport s now₂).summary
    ∧ ∃ pre post : String,
        serializeReport (mkReport s now₁) = pre ++ now₁ ++ post
        ∧ serializeReport (mkReport s now₂) = pre ++ now₂ ++ post := by
  refine ⟨rfl, rfl, rfl,
    "\x7b\"timestamp\": \"",
    "\"" ++ (", \"detections\": ["
      ++ String.intercalate ", " (s.detections.map serializeDetection) ++ "]"
      ++ ", \"alerts\": ["
      ++ String.intercalate ", " (s.alerts.map serializeAlert) ++ "]"
      ++ ", \"summary\": "
      ++ serializeSummary { total_detections := s.detections.length,
                            critical_alerts := criticalCount s.alerts }
      ++ "\x7d"), ?_, ?_⟩ <;>
  · simp [serializeReport, jsonString, mkReport, String.append_assoc]
    rw [show ("\x7b\"timestamp\": \"" : String)
          = "\x7b\"timestamp\": " ++ "\"" from rfl,
        show ("\", \"detections\": [" : String)
          = "\"" ++ ", \"detections\": [" from rfl]
    simp only [String.append_assoc]

/-- C7 counterexample: on an unopenable source, `get_video_info` returns
None (src/backend.py lines 25-27) — it does not raise IOError. -/
theorem get_video_info_unopened_cex :
    get_video_info none = GetVideoInfoResult.returnedNone
    ∧ GetVideoInfoResult.returnedNone ≠ GetVideoInfoResult.ioError := by
  exact ⟨rfl, by decide⟩

/-- C7 (amended): for every path naming a missing, corrupt or
unsupported video (the capture does not open), `get_video_info` returns
the non-error value None and produces no metadata dict; no IOError is
surfaced. -/
theorem get_video_info_unopened_returns_none :
    get_video_info none = GetVideoInfoResult.returnedNone
    ∧ ∀ i, get_video_info none ≠ GetVideoInfoResult.info i := by
  refine ⟨rfl, ?_⟩
  intro i h
  simp [get_video_info] at h

/-- C8: the session produced by the analysis handler does not depend on
the detection mode, the confidence threshold, the frame skip or the
uploaded video, and always holds exactly 3 detections (two persons and
one vehicle, at 00:00:05, 00:00:12, 00:00:18) and exactly one alert,
which is HIGH (src/app.py lines 148-199). -/
theorem analysis_output_constant (m₁ : String) (t₁ : ℚ) (k₁ v₁ : ℕ)
    (m₂ : String) (t₂ : ℚ) (k₂ v₂ : ℕ) :
    startAnalysis m₁ t₁ k₁ v₁ = startAnalysis m₂ t₂ k₂ v₂
    ∧ (startAnalysis m₁ t₁ k₁ v₁).detections.length = 3
    ∧ ((startAnalysis m₁ t₁ k₁ v₁).detections.filter
        (fun d => d.type == "person")).length = 2
    ∧ ((startAnalysis m₁ t₁ k₁ v₁).detections.filter
        (fun d => d.type == "vehicle")).length = 1
    ∧ (startAnalysis m₁ t₁ k₁ v₁).detections.map Detection.timestamp
        = ["00:00:05", "00:00:12", "00:00:18"]
    ∧ (startAnalysis m₁ t₁ k₁ v₁).alerts.length = 1
    ∧ ((startAnalysis m₁ t₁ k₁ v₁).alerts.filter
        (fun a => a.severity == "HIGH")).length = 1
    ∧ (startAnalysis m₁ t₁ k₁ v₁).processed = true := by
  refine ⟨rfl, ?_⟩
  simp only [startAnalysis]
  decide

/-- C9: the metadata computation is total and never divides by zero:
duration is 0 when fps ≤ 0 and frame_count / fps otherwise, and the
inline computation of src/app.py line 130 agrees
(src/backend.py line 34). -/
theorem video_duration_total (p : RawVideoProps) :
    (p.fps ≤ 0 → (videoInfoOf p).duration = 0)
    ∧ (0 < p.fps → (videoInfoOf p).duration = (p.frame_count : ℚ) / p.fps)
    ∧ (videoInfoOf p).duration = appVideoDuration p.fps p.frame_count := by
  refine ⟨?_, ?_, rfl⟩
  · intro h
    simp [videoInfoOf, not_lt.mpr h]
  · intro h
    simp [videoInfoOf, h]

/-- C10: in every exported report, summary.total_detections is the
length of the report's detections list and summary.critical_alerts is
the number of CRITICAL alerts in the report's alerts list
(src/app.py lines 332-340). -/
theorem report_summary_consistent (s : Session) (now : String) :
    (mkReport s now).summary.total_detections
        = (mkReport s now).detections.length
    ∧ (mkReport s now).summary.critical_alerts
        = ((mkReport s now).alerts.filter
            (fun a => a.severity == "CRITICAL")).length :=
  ⟨rfl, rfl⟩
